import Mathlib

/-!
# mag-rtmidi: the C glue layer (`lib.h`, `lib.cpp`)

A shallow embedding of the adapter functions

* `quietErr`, `rtmidi_set_error_quiet` (`lib.cpp`),
* `midiInCallback`, `cgoSetCallback`, `testCallback` (`lib.h`),

as state-passing functions on an explicit `World`, followed by the properties
of these functions.

Conventions.
* A pointer is an address (`Ptr`, a natural number, `NULL = 0`).  The handle
  structs live in a heap `World.handles`; dereferencing an address that holds no
  handle is undefined and is modelled by `none`.
* A `const char *` is an address too.  `World.cstrings` tells, for each address,
  the text of the character string that is alive there, if any; an address whose
  storage has been released holds none, and reading through it is undefined.
* A C++ call either returns or throws: the result of a call is an
  `Except CppException Unit` next to the state the call leaves behind (state
  changes made before a `throw` persist).
* `extern` functions are observed through the trace of their invocations
  (`World.goCalls`).
* A `double` is its IEEE 754 binary64 bit pattern; the glue code only stores
  and forwards doubles, it never computes with them.
-/

set_option linter.unusedVariables false

namespace MagRtMidi

/-! ## Data model -/

/-- An address.  `void *`, `RtMidiPtr` and `unsigned char *` arguments that are
only forwarded are addresses. -/
abbrev Ptr := Nat

/-- The null pointer. -/
def NULL : Ptr := 0

/-- Modelled from the spec: the enumeration `RtMidiError::Type` of the wrapped
library (declared in `rtmidi/RtMidi.h`), the eleven error classifications. -/
inductive RtMidiErrorType
  | WARNING
  | DEBUG_WARNING
  | UNSPECIFIED
  | NO_DEVICES_FOUND
  | INVALID_DEVICE
  | MEMORY_ERROR
  | INVALID_PARAMETER
  | INVALID_USE
  | DRIVER_ERROR
  | SYSTEM_ERROR
  | THREAD_ERROR
deriving DecidableEq, Repr

/-- Modelled from the spec: the exception class `RtMidiError` of the wrapped
library: an error record made of a message text and a classification, built by
`RtMidiError( errorText, type )`. -/
structure RtMidiError where
  message : String
  type : RtMidiErrorType
deriving DecidableEq, Repr

/-- An exception object of class `RtMidiError` while it is alive: the error it
holds, and the address `buf` of the characters of its message, which belong to
the object and are released with it. -/
structure RtMidiErrorObject where
  err : RtMidiError
  buf : Ptr
deriving DecidableEq, Repr

/-- Modelled from the spec: `err.what ()`, the message text of the error, as a
`const char *`: the address of the characters inside the exception object. -/
def RtMidiErrorObject.what (obj : RtMidiErrorObject) : Ptr := obj.buf

/-- The text read through a `const char *` that points to the characters of a
string: the characters before the first NUL. -/
def c_str (s : String) : String :=
  String.mk (s.toList.takeWhile (fun c => c ≠ Char.ofNat 0))

/-- A thrown C++ exception.  `catch (const RtMidiError & err)` selects the
first constructor only; `foreign` stands for an exception object of any other
type (its description is kept for reference). -/
inductive CppException
  | rtMidiError (obj : RtMidiErrorObject)
  | foreign (what : String)
deriving DecidableEq, Repr

/-- Modelled from the spec: the handle struct `RtMidiWrapper` behind an
`RtMidiPtr` (declared in `rtmidi/rtmidi_c.h`): the wrapped backend object, the
flag telling that the last call was fine, and the last error message, a
`const char *`. -/
structure RtMidiWrapper where
  ptr : Ptr
  data : Ptr
  ok : Bool
  msg : Ptr
deriving DecidableEq, Repr

/-- A `double`, as its IEEE 754 binary64 bit pattern. -/
structure Double where
  bits : Nat
deriving DecidableEq, Repr

/-- The rational value of a finite binary64 pattern (`none` for infinities and
NaN). -/
def Double.toRat (d : Double) : Option ℚ :=
  let sign : ℚ := if (d.bits / 2 ^ 63) % 2 = 1 then -1 else 1
  let e : Nat := (d.bits / 2 ^ 52) % 2 ^ 11
  let frac : Nat := d.bits % 2 ^ 52
  if e = 2047 then none
  else if e = 0 then some (sign * (frac : ℚ) / 2 ^ 1074)
  else if 1075 ≤ e then some (sign * ((2 ^ 52 + frac : Nat) : ℚ) * 2 ^ (e - 1075))
  else some (sign * ((2 ^ 52 + frac : Nat) : ℚ) / 2 ^ (1075 - e))

/-- The value of the literal `3.14159` in `testCallback`: the binary64 number
nearest to 314159/100000 (see `lit_3_14159_nearest`). -/
def lit_3_14159 : Double := ⟨0x400921F9F01B866E⟩

/-- The function pointers of type `RtMidiCCallback` (receive callbacks).  The
only one this program defines is `midiInCallback`; `foreign` is a callback
defined elsewhere, known by its address. -/
inductive RtMidiCCallback
  | midiInCallback
  | foreign (addr : Nat)
deriving DecidableEq, Repr

/-- The function pointers of type `RtMidiErrorCallback`.  The only one this
program defines is `quietErr`. -/
inductive RtMidiErrorCallback
  | quietErr
  | foreign (addr : Nat)
deriving DecidableEq, Repr

/-- One invocation of the host receive handler `goMIDIInCallback`, with the
four arguments it was given.  `msg` is the content of the buffer the pointer
argument refers to, `msgsz` the length argument. -/
structure GoCall where
  ts : Double
  msg : List Nat
  msgsz : Nat
  arg : Ptr
deriving DecidableEq, Repr

/-- The state the glue code runs in.  `β` is the state of the wrapped backend
objects, which this program never inspects. -/
structure World (β : Type) where
  /-- The live handle structs, by address. -/
  handles : Ptr → Option RtMidiWrapper
  /-- The character strings that are alive, by address. -/
  cstrings : Ptr → Option String
  /-- The receive callback registered on each input handle, with its user data. -/
  inCallbacks : Ptr → Option (RtMidiCCallback × Ptr)
  /-- The invocations of `goMIDIInCallback` so far, oldest first. -/
  goCalls : List GoCall
  /-- The state of the wrapped backend objects. -/
  backend : β

/-- The part of the wrapped library that `rtmidi_set_error_quiet` calls:
`((RtMidiIn*) p)->setErrorCallback (cb, userData)`.  Its code is not part of
this program, so it is a parameter: given the object, the callback, the user
data and the backend state it returns or throws, and leaves a backend state.
The backend object holds no reference to the handle structs or to the host
side, so it acts on its own state only. -/
structure Backend (β : Type) where
  setErrorCallback : Ptr → RtMidiErrorCallback → Ptr → β → Except CppException Unit × β

/-! ## `lib.cpp` -/

/-- The quiet error callback, `lib.cpp` lines 17-21: throws
`RtMidiError( errorText, type )` unless the classification is `WARNING` or
`DEBUG_WARNING`; touches no state. -/
def quietErr {β : Type} (type : RtMidiErrorType) (errorText : String) (userData : Ptr)
    (w : World β) : Except RtMidiError Unit × World β :=
  if type ≠ RtMidiErrorType.WARNING ∧ type ≠ RtMidiErrorType.DEBUG_WARNING then
    (Except.error ⟨errorText, type⟩, w)
  else
    (Except.ok (), w)

/-- The function `rtmidi_set_error_quiet`, `lib.cpp` lines 23-30.  Reads
`device->ptr`, calls `setErrorCallback (quietErr, NULL)` on it inside a `try`
whose only handler is `catch (const RtMidiError & err)`.  While the handler
runs the caught exception object is alive, its message readable at
`err.what ()`; the handler stores `ok = false` and the pointer `err.what ()`
in the handle (lines 27-28); at the end of the handler (line 29) the exception
object is destroyed and its characters are released.  `none`: `device` is not
the address of a handle. -/
def rtmidi_set_error_quiet {β : Type} (B : Backend β) (device : Ptr) (w : World β) :
    Option (Except CppException Unit × World β) :=
  match w.handles device with
  | none => none
  | some h =>
    match B.setErrorCallback h.ptr RtMidiErrorCallback.quietErr NULL w.backend with
    | (Except.ok (), b) => some (Except.ok (), { w with backend := b })
    | (Except.error (CppException.rtMidiError err), b) =>
      let caught : World β :=
        { w with
          backend := b
          cstrings := Function.update w.cstrings err.buf (some (c_str err.err.message)) }
      let stored : World β :=
        { caught with
          handles := Function.update caught.handles device
            (some { h with ok := false, msg := err.what }) }
      let left : World β :=
        { stored with cstrings := Function.update stored.cstrings err.buf none }
      some (Except.ok (), left)
    | (Except.error (CppException.foreign s), b) =>
      some (Except.error (CppException.foreign s), { w with backend := b })

/-- The text read through the `msg` field of the handle at `device`: `none`
when there is no such handle or when `msg` is not the address of a live
string. -/
def World.msgText {β : Type} (w : World β) (device : Ptr) : Option String :=
  match w.handles device with
  | none => none
  | some h => w.cstrings h.msg

/-! ## `lib.h` -/

/-- The host receive handler `goMIDIInCallback` (`extern`, `lib.h` line 8): its
body is on the host side; an invocation is observed as one more entry of the
trace. -/
def goMIDIInCallback {β : Type} (ts : Double) (msg : List Nat) (msgsz : Nat) (arg : Ptr)
    (w : World β) : World β :=
  { w with goCalls := w.goCalls ++ [⟨ts, msg, msgsz, arg⟩] }

/-- The receive trampoline `midiInCallback`, `lib.h` lines 10-12. -/
def midiInCallback {β : Type} (ts : Double) (msg : List Nat) (msgsz : Nat) (arg : Ptr)
    (w : World β) : World β :=
  goMIDIInCallback ts msg msgsz arg w

/-- Calling through a receive-callback pointer.  A callback that is not part of
this program is not followed. -/
def RtMidiCCallback.call {β : Type} (cb : RtMidiCCallback) (ts : Double) (msg : List Nat)
    (msgsz : Nat) (arg : Ptr) (w : World β) : World β :=
  match cb with
  | RtMidiCCallback.midiInCallback => MagRtMidi.midiInCallback ts msg msgsz arg w
  | RtMidiCCallback.foreign _ => w

/-- Modelled from the spec: `rtmidi_in_set_callback` of the wrapped library,
"registers a callback invoked once per incoming MIDI message", with the
"opaque user-data pointer for handle identification": the callback and the
user data are recorded on the handle. -/
def rtmidi_in_set_callback {β : Type} (device : Ptr) (callback : RtMidiCCallback)
    (userData : Ptr) (w : World β) : World β :=
  { w with inCallbacks := Function.update w.inCallbacks device (some (callback, userData)) }

/-- Modelled from the spec: the backend delivering one incoming message on a
handle: the registered callback is invoked once, with the message and the user
data it was registered with; nothing happens when none is registered. -/
def backendDeliver {β : Type} (device : Ptr) (ts : Double) (msg : List Nat) (msgsz : Nat)
    (w : World β) : World β :=
  match w.inCallbacks device with
  | some (cb, userData) => cb.call ts msg msgsz userData w
  | none => w

/-- The function `cgoSetCallback`, `lib.h` lines 14-16. -/
def cgoSetCallback {β : Type} (inp : Ptr) (arg : Ptr) (w : World β) : World β :=
  rtmidi_in_set_callback inp RtMidiCCallback.midiInCallback arg w

/-- The function `testCallback`, `lib.h` lines 18-23: `sizeof(buf)` is the
number of bytes of the array, and the handle pointer itself is the last
argument. -/
def testCallback {β : Type} (inp : Ptr) (w : World β) : World β :=
  let ts : Double := lit_3_14159
  let buf : List Nat := [0x90, 0x30, 0x00]
  goMIDIInCallback ts buf buf.length inp w

end MagRtMidi

namespace MagRtMidi

/-! ## Concrete states used to evaluate the functions -/

/-- A state with one live handle, at address 1, wrapping the backend object at
address 10, whose last call was fine (no message); nothing registered, no call
made. -/
def sampleWorld : World Unit where
  handles := fun p => if p = 1 then some ⟨10, 0, true, NULL⟩ else none
  cstrings := fun _ => none
  inCallbacks := fun _ => none
  goCalls := []
  backend := ()

/-- The same state after an earlier failure on the handle at address 1, whose
message is a live string at address 77. -/
def failedWorld : World Unit where
  handles := fun p => if p = 1 then some ⟨10, 0, false, 77⟩ else none
  cstrings := fun p => if p = 77 then some "earlier failure" else none
  inCallbacks := fun _ => none
  goCalls := []
  backend := ()

/-- A backend whose `setErrorCallback` returns normally. -/
def quietBackend : Backend Unit where
  setErrorCallback := fun _ _ _ b => (Except.ok (), b)

/-- A backend whose `setErrorCallback` throws the given exception. -/
def throwingBackend (e : CppException) : Backend Unit where
  setErrorCallback := fun _ _ _ b => (Except.error e, b)

/-! ## General facts -/

/-- The classifications other than `WARNING` and `DEBUG_WARNING` are the nine
remaining ones. -/
theorem fatal_classifications (type : RtMidiErrorType) :
    (type ≠ RtMidiErrorType.WARNING ∧ type ≠ RtMidiErrorType.DEBUG_WARNING) ↔
      type ∈ [RtMidiErrorType.UNSPECIFIED, RtMidiErrorType.NO_DEVICES_FOUND,
        RtMidiErrorType.INVALID_DEVICE, RtMidiErrorType.MEMORY_ERROR,
        RtMidiErrorType.INVALID_PARAMETER, RtMidiErrorType.INVALID_USE,
        RtMidiErrorType.DRIVER_ERROR, RtMidiErrorType.SYSTEM_ERROR,
        RtMidiErrorType.THREAD_ERROR] := by
  cases type <;> decide

/-- The constant `lit_3_14159` is a finite double whose value is within less
than half a unit in the last place (2^-52 on the binade [2, 4)) of
314159/100000: it is the double the literal `3.14159` denotes. -/
theorem lit_3_14159_nearest :
    ∃ v : ℚ, lit_3_14159.toRat = some v ∧ 2 ≤ v ∧ v < 4 ∧
      |v - 314159 / 100000| < 1 / 2 ^ 52 := by
  refine ⟨7074231776675438 / 2 ^ 51, ?_, ?_, ?_, ?_⟩
  · simp only [Double.toRat, lit_3_14159]
    norm_num
  · norm_num
  · norm_num
  · rw [abs_lt]
    constructor <;> norm_num

end MagRtMidi

namespace MagRtMidi

/-! ## The quiet error callback -/

/-- C1: for a classification that is `WARNING` or `DEBUG_WARNING`, whatever the
message text and the user data, `quietErr` returns normally (it throws
nothing) and leaves the whole state as it was, so no handle's `ok` flag or
`msg` field changes. -/
theorem quietErr_warning_returns {β : Type} (type : RtMidiErrorType) (errorText : String)
    (userData : Ptr) (w : World β)
    (htype : type = RtMidiErrorType.WARNING ∨ type = RtMidiErrorType.DEBUG_WARNING) :
    quietErr type errorText userData w = (Except.ok (), w) ∧
      ∀ device : Ptr, (quietErr type errorText userData w).2.handles device = w.handles device := by
  rcases htype with rfl | rfl <;> simp [quietErr]

/-- Witness of C1: a debug warning delivered while the handle at address 1
carries an earlier failure. -/
theorem quietErr_warning_returns_witness :
    (RtMidiErrorType.DEBUG_WARNING = RtMidiErrorType.WARNING ∨
        RtMidiErrorType.DEBUG_WARNING = RtMidiErrorType.DEBUG_WARNING) ∧
      (quietErr RtMidiErrorType.DEBUG_WARNING "no ports" NULL failedWorld
          = (Except.ok (), failedWorld) ∧
        ∀ device : Ptr,
          (quietErr RtMidiErrorType.DEBUG_WARNING "no ports" NULL failedWorld).2.handles device
            = failedWorld.handles device) :=
  ⟨by decide,
    quietErr_warning_returns RtMidiErrorType.DEBUG_WARNING "no ports" NULL failedWorld
      (by decide)⟩

/-- C2: for a classification other than `WARNING` and `DEBUG_WARNING`, whatever
the message text and the user data, `quietErr` does not return normally: its
result is a thrown `RtMidiError`. -/
theorem quietErr_fatal_raises {β : Type} (type : RtMidiErrorType) (errorText : String)
    (userData : Ptr) (w : World β)
    (htype : type ≠ RtMidiErrorType.WARNING ∧ type ≠ RtMidiErrorType.DEBUG_WARNING) :
    (∃ err : RtMidiError, (quietErr type errorText userData w).1 = Except.error err) ∧
      (quietErr type errorText userData w).1 ≠ Except.ok () := by
  simp [quietErr, htype]

/-- Witness of C2: a driver error. -/
theorem quietErr_fatal_raises_witness :
    (RtMidiErrorType.DRIVER_ERROR ≠ RtMidiErrorType.WARNING ∧
        RtMidiErrorType.DRIVER_ERROR ≠ RtMidiErrorType.DEBUG_WARNING) ∧
      ((∃ err : RtMidiError,
          (quietErr RtMidiErrorType.DRIVER_ERROR "device gone" NULL sampleWorld).1
            = Except.error err) ∧
        (quietErr RtMidiErrorType.DRIVER_ERROR "device gone" NULL sampleWorld).1
          ≠ Except.ok ()) :=
  ⟨by decide,
    quietErr_fatal_raises RtMidiErrorType.DRIVER_ERROR "device gone" NULL sampleWorld
      (by decide)⟩

/-- C9: for a classification other than `WARNING` and `DEBUG_WARNING`, the
`RtMidiError` that `quietErr` throws has exactly the message text and exactly
the classification of the call, and is the same whatever the user data. -/
theorem quietErr_error_carries_arguments {β : Type} (type : RtMidiErrorType)
    (errorText : String) (userData : Ptr) (w : World β)
    (htype : type ≠ RtMidiErrorType.WARNING ∧ type ≠ RtMidiErrorType.DEBUG_WARNING) :
    (∃ err : RtMidiError, (quietErr type errorText userData w).1 = Except.error err ∧
        err.message = errorText ∧ err.type = type) ∧
      ∀ userData2 : Ptr,
        (quietErr type errorText userData2 w).1 = (quietErr type errorText userData w).1 := by
  simp [quietErr, htype]

/-- Witness of C9: an invalid-parameter error with a user-data pointer. -/
theorem quietErr_error_carries_arguments_witness :
    (RtMidiErrorType.INVALID_PARAMETER ≠ RtMidiErrorType.WARNING ∧
        RtMidiErrorType.INVALID_PARAMETER ≠ RtMidiErrorType.DEBUG_WARNING) ∧
      ((∃ err : RtMidiError,
          (quietErr RtMidiErrorType.INVALID_PARAMETER "bad port" 7 sampleWorld).1
              = Except.error err ∧
            err.message = "bad port" ∧ err.type = RtMidiErrorType.INVALID_PARAMETER) ∧
        ∀ userData2 : Ptr,
          (quietErr RtMidiErrorType.INVALID_PARAMETER "bad port" userData2 sampleWorld).1
            = (quietErr RtMidiErrorType.INVALID_PARAMETER "bad port" 7 sampleWorld).1) :=
  ⟨by decide,
    quietErr_error_carries_arguments RtMidiErrorType.INVALID_PARAMETER "bad port" 7 sampleWorld
      (by decide)⟩

end MagRtMidi

namespace MagRtMidi

/-! ## Installing the quiet callback -/

/-- The call is defined on every live handle: it yields an outcome whatever the
backend does. -/
theorem rtmidi_set_error_quiet_defined {β : Type} (B : Backend β) (device : Ptr)
    (w : World β) (h : RtMidiWrapper) (hlive : w.handles device = some h) :
    ∃ r, rtmidi_set_error_quiet B device w = some r := by
  unfold rtmidi_set_error_quiet
  rw [hlive]
  rcases hres : B.setErrorCallback h.ptr RtMidiErrorCallback.quietErr NULL w.backend
    with ⟨r, b⟩
  rcases r with e | u
  · cases e <;> simp [hres]
  · simp [hres]

/-- The state a caught `RtMidiError` leaves: the handle has `ok = false` and
`msg` equal to the pointer `what ()` returned, and no string is alive at that
address any more. -/
theorem rtmidi_set_error_quiet_caught_state {β : Type} (B : Backend β) (device : Ptr)
    (w : World β) (h : RtMidiWrapper) (obj : RtMidiErrorObject) (b : β)
    (hlive : w.handles device = some h)
    (hthrow : B.setErrorCallback h.ptr RtMidiErrorCallback.quietErr NULL w.backend
      = (Except.error (CppException.rtMidiError obj), b)) :
    rtmidi_set_error_quiet B device w
      = some (Except.ok (),
          { handles := Function.update w.handles device
              (some { ptr := h.ptr, data := h.data, ok := false, msg := obj.buf })
            cstrings := Function.update w.cstrings obj.buf none
            inCallbacks := w.inCallbacks
            goCalls := w.goCalls
            backend := b }) := by
  simp [rtmidi_set_error_quiet, hlive, hthrow, RtMidiErrorObject.what]

/-- After a caught `RtMidiError`, on every live handle, the text behind the
handle's `msg` is not readable: `msg` points to released storage. -/
theorem rtmidi_set_error_quiet_msg_released {β : Type} (B : Backend β) (device : Ptr)
    (w : World β) (h : RtMidiWrapper) (obj : RtMidiErrorObject) (b : β)
    (hlive : w.handles device = some h)
    (hthrow : B.setErrorCallback h.ptr RtMidiErrorCallback.quietErr NULL w.backend
      = (Except.error (CppException.rtMidiError obj), b)) :
    (rtmidi_set_error_quiet B device w).map (fun r => r.2.msgText device) = some none := by
  rw [rtmidi_set_error_quiet_caught_state B device w h obj b hlive hthrow]
  simp [World.msgText]

/-- C3, as stated, fails: when the backend throws an exception that is not an
`RtMidiError` (here a `std::bad_alloc`) while the callback is installed on the
handle at address 1, the only handler does not select it and the exception
leaves `rtmidi_set_error_quiet`, the handle being left untouched. -/
theorem rtmidi_set_error_quiet_foreign_escapes :
    (rtmidi_set_error_quiet (throwingBackend (CppException.foreign "std::bad_alloc")) 1
        sampleWorld).map Prod.fst
      = some (Except.error (CppException.foreign "std::bad_alloc")) ∧
    (rtmidi_set_error_quiet (throwingBackend (CppException.foreign "std::bad_alloc")) 1
        sampleWorld).map (fun r => r.2.handles 1)
      = some (some ⟨10, 0, true, NULL⟩) := by
  constructor <;> rfl

/-- C3, amended: for every live handle and every `RtMidiError` the backend
throws while the quiet callback is installed, `rtmidi_set_error_quiet` catches
it and returns normally. -/
theorem rtmidi_set_error_quiet_catches_RtMidiError {β : Type} (B : Backend β) (device : Ptr)
    (w : World β) (h : RtMidiWrapper) (obj : RtMidiErrorObject) (b : β)
    (hlive : w.handles device = some h)
    (hthrow : B.setErrorCallback h.ptr RtMidiErrorCallback.quietErr NULL w.backend
      = (Except.error (CppException.rtMidiError obj), b)) :
    ∃ w2 : World β, rtmidi_set_error_quiet B device w = some (Except.ok (), w2) := by
  simp [rtmidi_set_error_quiet, hlive, hthrow]

/-- Witness of the amended C3: the backend throws a driver error on the
handle at address 1. -/
theorem rtmidi_set_error_quiet_catches_RtMidiError_witness :
    sampleWorld.handles 1 = some ⟨10, 0, true, NULL⟩ ∧
      (throwingBackend (CppException.rtMidiError ⟨⟨"driver down",
            RtMidiErrorType.DRIVER_ERROR⟩, 500⟩)).setErrorCallback
          10 RtMidiErrorCallback.quietErr NULL sampleWorld.backend
        = (Except.error (CppException.rtMidiError ⟨⟨"driver down",
            RtMidiErrorType.DRIVER_ERROR⟩, 500⟩), ()) ∧
      ∃ w2 : World Unit,
        rtmidi_set_error_quiet
            (throwingBackend (CppException.rtMidiError ⟨⟨"driver down",
              RtMidiErrorType.DRIVER_ERROR⟩, 500⟩)) 1 sampleWorld
          = some (Except.ok (), w2) :=
  ⟨rfl, rfl,
    rtmidi_set_error_quiet_catches_RtMidiError
      (throwingBackend (CppException.rtMidiError ⟨⟨"driver down",
        RtMidiErrorType.DRIVER_ERROR⟩, 500⟩))
      1 sampleWorld ⟨10, 0, true, NULL⟩ ⟨⟨"driver down", RtMidiErrorType.DRIVER_ERROR⟩, 500⟩ ()
      rfl rfl⟩

/-- C4, the code at a failing input: the backend throws
`RtMidiError("no memory", MEMORY_ERROR)`, whose characters are at address 500,
while the callback is installed on the handle at address 1.  The call returns
normally with `ok = false` and `msg = 500`, the pointer `what ()` returned, but
the exception object is gone when the call returns: no string is alive at
address 500, so the text behind `msg` is not readable and is not
"no memory". -/
theorem rtmidi_set_error_quiet_msg_dangles :
    (rtmidi_set_error_quiet
        (throwingBackend (CppException.rtMidiError ⟨⟨"no memory",
          RtMidiErrorType.MEMORY_ERROR⟩, 500⟩)) 1 failedWorld).map
        (fun r => (r.1, r.2.handles 1, r.2.cstrings 500, r.2.msgText 1))
      = some (Except.ok (), some ⟨10, 0, false, 500⟩, none, none) ∧
    (rtmidi_set_error_quiet
        (throwingBackend (CppException.rtMidiError ⟨⟨"no memory",
          RtMidiErrorType.MEMORY_ERROR⟩, 500⟩)) 1 failedWorld).map
        (fun r => r.2.msgText 1)
      ≠ some (some "no memory") := by
  constructor
  · rfl
  · decide

end MagRtMidi

namespace MagRtMidi

/-- C7, as stated, fails: a driver error and an invalid-device error with the
same message text, caught on the handle at address 1, leave exactly the same
outcome and state, so nothing after the call tells the classification. -/
theorem rtmidi_set_error_quiet_drops_classification :
    RtMidiError.type ⟨"boom", RtMidiErrorType.DRIVER_ERROR⟩
        ≠ RtMidiError.type ⟨"boom", RtMidiErrorType.INVALID_DEVICE⟩ ∧
      rtmidi_set_error_quiet
          (throwingBackend (CppException.rtMidiError
            ⟨⟨"boom", RtMidiErrorType.DRIVER_ERROR⟩, 500⟩))
          1 sampleWorld
        = rtmidi_set_error_quiet
          (throwingBackend (CppException.rtMidiError
            ⟨⟨"boom", RtMidiErrorType.INVALID_DEVICE⟩, 500⟩))
          1 sampleWorld ∧
      (rtmidi_set_error_quiet
          (throwingBackend (CppException.rtMidiError
            ⟨⟨"boom", RtMidiErrorType.DRIVER_ERROR⟩, 500⟩))
          1 sampleWorld).map (fun r => r.2.handles 1)
        = some (some ⟨10, 0, false, 500⟩) := by
  refine ⟨by decide, rfl, rfl⟩

/-- No read-out of the state after the call gives back the classification of
the caught error: the general form of
`rtmidi_set_error_quiet_drops_classification`. -/
theorem no_classification_readout :
    ¬ ∃ classification : World Unit → RtMidiErrorType,
      ∀ (err : RtMidiError) (w2 : World Unit),
        rtmidi_set_error_quiet (throwingBackend (CppException.rtMidiError ⟨err, 500⟩)) 1
            sampleWorld
            = some (Except.ok (), w2) →
          classification w2 = err.type := by
  rintro ⟨f, hf⟩
  have h1 := hf ⟨"boom", RtMidiErrorType.DRIVER_ERROR⟩ _ rfl
  have h2 := hf ⟨"boom", RtMidiErrorType.INVALID_DEVICE⟩ _ rfl
  have h3 : RtMidiErrorType.DRIVER_ERROR = RtMidiErrorType.INVALID_DEVICE :=
    h1.symm.trans h2
  exact absurd h3 (by decide)

/-- C7, amended: the handle's last error holds no severity classification.
For every `RtMidiError` caught by `rtmidi_set_error_quiet` on a live handle,
the call returns with the handle's `ok` flag false, and the outcome and the
whole state after the call are the same whatever the classification of the
error: two caught errors that differ in their classification only leave the
same state. -/
theorem rtmidi_set_error_quiet_classification_not_recorded {β : Type} (B1 B2 : Backend β)
    (device : Ptr) (w : World β) (h : RtMidiWrapper) (text : String)
    (t1 t2 : RtMidiErrorType) (buf : Ptr) (b : β)
    (hlive : w.handles device = some h)
    (hthrow1 : B1.setErrorCallback h.ptr RtMidiErrorCallback.quietErr NULL w.backend
      = (Except.error (CppException.rtMidiError ⟨⟨text, t1⟩, buf⟩), b))
    (hthrow2 : B2.setErrorCallback h.ptr RtMidiErrorCallback.quietErr NULL w.backend
      = (Except.error (CppException.rtMidiError ⟨⟨text, t2⟩, buf⟩), b)) :
    rtmidi_set_error_quiet B1 device w = rtmidi_set_error_quiet B2 device w ∧
      ∃ (w2 : World β) (h2 : RtMidiWrapper),
        rtmidi_set_error_quiet B1 device w = some (Except.ok (), w2) ∧
          w2.handles device = some h2 ∧ h2.ok = false := by
  rw [rtmidi_set_error_quiet_caught_state B1 device w h ⟨⟨text, t1⟩, buf⟩ b hlive hthrow1,
    rtmidi_set_error_quiet_caught_state B2 device w h ⟨⟨text, t2⟩, buf⟩ b hlive hthrow2]
  simp

/-- Witness of the amended C7: a system error and a thread error with the same
text, caught on the handle at address 1. -/
theorem rtmidi_set_error_quiet_classification_not_recorded_witness :
    sampleWorld.handles 1 = some ⟨10, 0, true, NULL⟩ ∧
      (throwingBackend (CppException.rtMidiError ⟨⟨"boom",
            RtMidiErrorType.SYSTEM_ERROR⟩, 500⟩)).setErrorCallback
          10 RtMidiErrorCallback.quietErr NULL sampleWorld.backend
        = (Except.error (CppException.rtMidiError ⟨⟨"boom",
            RtMidiErrorType.SYSTEM_ERROR⟩, 500⟩), ()) ∧
      (throwingBackend (CppException.rtMidiError ⟨⟨"boom",
            RtMidiErrorType.THREAD_ERROR⟩, 500⟩)).setErrorCallback
          10 RtMidiErrorCallback.quietErr NULL sampleWorld.backend
        = (Except.error (CppException.rtMidiError ⟨⟨"boom",
            RtMidiErrorType.THREAD_ERROR⟩, 500⟩), ()) ∧
      (rtmidi_set_error_quiet
          (throwingBackend (CppException.rtMidiError ⟨⟨"boom",
            RtMidiErrorType.SYSTEM_ERROR⟩, 500⟩)) 1 sampleWorld
        = rtmidi_set_error_quiet
          (throwingBackend (CppException.rtMidiError ⟨⟨"boom",
            RtMidiErrorType.THREAD_ERROR⟩, 500⟩)) 1 sampleWorld ∧
        ∃ (w2 : World Unit) (h2 : RtMidiWrapper),
          rtmidi_set_error_quiet
              (throwingBackend (CppException.rtMidiError ⟨⟨"boom",
                RtMidiErrorType.SYSTEM_ERROR⟩, 500⟩)) 1 sampleWorld
            = some (Except.ok (), w2) ∧
          w2.handles 1 = some h2 ∧ h2.ok = false) :=
  ⟨rfl, rfl, rfl,
    rtmidi_set_error_quiet_classification_not_recorded
      (throwingBackend (CppException.rtMidiError ⟨⟨"boom", RtMidiErrorType.SYSTEM_ERROR⟩, 500⟩))
      (throwingBackend (CppException.rtMidiError ⟨⟨"boom", RtMidiErrorType.THREAD_ERROR⟩, 500⟩))
      1 sampleWorld ⟨10, 0, true, NULL⟩ "boom" RtMidiErrorType.SYSTEM_ERROR
      RtMidiErrorType.THREAD_ERROR 500 () rfl rfl rfl⟩

/-- C10: on every live handle, if the backend's `setErrorCallback` throws
nothing, `rtmidi_set_error_quiet` returns and leaves every handle and every
string, and so this handle's `ok` flag and `msg` field, exactly as before the
call; a handle that was not ok before is still not ok afterwards. -/
theorem rtmidi_set_error_quiet_success_frame {β : Type} (B : Backend β) (device : Ptr)
    (w : World β) (h : RtMidiWrapper) (b : β)
    (hlive : w.handles device = some h)
    (hok : B.setErrorCallback h.ptr RtMidiErrorCallback.quietErr NULL w.backend
      = (Except.ok (), b)) :
    ∃ w2 : World β,
      rtmidi_set_error_quiet B device w = some (Except.ok (), w2) ∧
        w2.handles = w.handles ∧
        (∃ h2 : RtMidiWrapper, w2.handles device = some h2 ∧ h2.ok = h.ok ∧ h2.msg = h.msg ∧
          (h.ok = false → h2.ok = false)) ∧
        w2.cstrings = w.cstrings ∧ w2.msgText device = w.msgText device := by
  simp [rtmidi_set_error_quiet, hlive, hok, World.msgText]

/-- Witness of C10: installing the callback on a handle that carries an earlier
failure. -/
theorem rtmidi_set_error_quiet_success_frame_witness :
    failedWorld.handles 1 = some ⟨10, 0, false, 77⟩ ∧
      quietBackend.setErrorCallback 10 RtMidiErrorCallback.quietErr NULL failedWorld.backend
        = (Except.ok (), ()) ∧
      ∃ w2 : World Unit,
        rtmidi_set_error_quiet quietBackend 1 failedWorld = some (Except.ok (), w2) ∧
          w2.handles = failedWorld.handles ∧
          (∃ h2 : RtMidiWrapper, w2.handles 1 = some h2 ∧
            h2.ok = RtMidiWrapper.ok ⟨10, 0, false, 77⟩ ∧
            h2.msg = RtMidiWrapper.msg ⟨10, 0, false, 77⟩ ∧
            (RtMidiWrapper.ok ⟨10, 0, false, 77⟩ = false → h2.ok = false)) ∧
          w2.cstrings = failedWorld.cstrings ∧ w2.msgText 1 = failedWorld.msgText 1 :=
  ⟨rfl, rfl,
    rtmidi_set_error_quiet_success_frame quietBackend 1 failedWorld ⟨10, 0, false, 77⟩ ()
      rfl rfl⟩

/-! ## The receive path -/

/-- C6: for every timestamp, message buffer, length and user data,
`midiInCallback` invokes `goMIDIInCallback` exactly once, with the same four
values (the trace grows by that one call), and changes nothing else. -/
theorem midiInCallback_forwards {β : Type} (ts : Double) (msg : List Nat) (msgsz : Nat)
    (arg : Ptr) (w : World β) :
    midiInCallback ts msg msgsz arg w = goMIDIInCallback ts msg msgsz arg w ∧
      (midiInCallback ts msg msgsz arg w).goCalls
        = w.goCalls ++ [{ ts := ts, msg := msg, msgsz := msgsz, arg := arg }] ∧
      (midiInCallback ts msg msgsz arg w).goCalls.length = w.goCalls.length + 1 ∧
      (midiInCallback ts msg msgsz arg w).handles = w.handles ∧
      (midiInCallback ts msg msgsz arg w).inCallbacks = w.inCallbacks ∧
      (midiInCallback ts msg msgsz arg w).backend = w.backend ∧
      (midiInCallback ts msg msgsz arg w).cstrings = w.cstrings := by
  simp [midiInCallback, goMIDIInCallback]

/-- C5: for every handle pointer `inp`, `testCallback inp` invokes
`goMIDIInCallback` exactly once; the call carries the double that the literal
3.14159 denotes, the bytes 0x90, 0x30, 0x00, the length 3 and `inp` itself;
nothing else changes. -/
theorem testCallback_delivers {β : Type} (inp : Ptr) (w : World β) :
    (testCallback inp w).goCalls
        = w.goCalls ++ [{ ts := lit_3_14159, msg := [0x90, 0x30, 0x00], msgsz := 3, arg := inp }] ∧
      (testCallback inp w).goCalls.length = w.goCalls.length + 1 ∧
      (∃ v : ℚ, lit_3_14159.toRat = some v ∧ 2 ≤ v ∧ v < 4 ∧
        |v - 314159 / 100000| < 1 / 2 ^ 52) ∧
      (testCallback inp w).handles = w.handles ∧
      (testCallback inp w).inCallbacks = w.inCallbacks ∧
      (testCallback inp w).backend = w.backend ∧
      (testCallback inp w).cstrings = w.cstrings := by
  refine ⟨?_, ?_, lit_3_14159_nearest, ?_, ?_, ?_, ?_⟩ <;>
    simp [testCallback, goMIDIInCallback]

/-- C8: for every input handle `inp` and user data `arg`, `cgoSetCallback`
registers on `inp` exactly `midiInCallback` with `arg`, touching no other
registration and no handle; a later delivery of `(ts, msg, msgsz)` on `inp`
then reaches `goMIDIInCallback` once, as `(ts, msg, msgsz, arg)`. -/
theorem cgoSetCallback_registers_trampoline {β : Type} (inp : Ptr) (arg : Ptr) (w : World β) :
    cgoSetCallback inp arg w
        = rtmidi_in_set_callback inp RtMidiCCallback.midiInCallback arg w ∧
      (cgoSetCallback inp arg w).inCallbacks inp
        = some (RtMidiCCallback.midiInCallback, arg) ∧
      (cgoSetCallback inp arg w).inCallbacks
        = Function.update w.inCallbacks inp (some (RtMidiCCallback.midiInCallback, arg)) ∧
      (cgoSetCallback inp arg w).handles = w.handles ∧
      (cgoSetCallback inp arg w).goCalls = w.goCalls ∧
      (cgoSetCallback inp arg w).cstrings = w.cstrings ∧
      ∀ (ts : Double) (msg : List Nat) (msgsz : Nat),
        backendDeliver inp ts msg msgsz (cgoSetCallback inp arg w)
            = goMIDIInCallback ts msg msgsz arg (cgoSetCallback inp arg w) ∧
          (backendDeliver inp ts msg msgsz (cgoSetCallback inp arg w)).goCalls
            = w.goCalls ++ [{ ts := ts, msg := msg, msgsz := msgsz, arg := arg }] := by
  refine ⟨rfl, ?_, rfl, rfl, rfl, rfl, ?_⟩
  · simp [cgoSetCallback, rtmidi_in_set_callback]
  · intro ts msg msgsz
    simp [backendDeliver, cgoSetCallback, rtmidi_in_set_callback, RtMidiCCallback.call,
      midiInCallback, goMIDIInCallback]

end MagRtMidi
